import Mathlib

/-!
Verification of the variant-resolution utility of the rizzui component
library (`createVariant` and its helpers in
`src/packages/ui/src/components/upload/file-input.tsx`, variants module),
together with a model of the `cn` class-name joiner.

Conventions of the shallow embedding:
* JavaScript primitive values appearing as variant props are modelled by
  `JValue` (strings, integers, booleans, `null`); an absent key or an
  explicit `undefined` is modelled by `Option.none` of the lookup.
* JavaScript objects used as finite string-keyed maps are modelled by
  association lists, looked up with `lookupKV` (first binding wins, as a
  JavaScript object has at most one binding per key).
* Class strings are ordinary Lean `String`s; token-level reasoning works
  on their `List Char` data.
-/

/-! ### The `cn` class-name joiner (modelled from the spec) -/

/-- Modelled from the spec: the `cn` utility is imported from
`../../lib/cn`, whose source is not part of the repository snapshot.  The
spec describes it as a class-name joiner that "merges/deduplicates
space-separated class tokens".  `tokensCL` splits a character list into
its space-separated tokens (maximal space-free nonempty chunks). -/
def tokensCL (l : List Char) : List (List Char) :=
  (l.splitOn ' ').filter (fun t => t ≠ [])

/-- Modelled from the spec: joining tokens back with single spaces. -/
def joinCL (ls : List (List Char)) : List Char :=
  [' '].intercalate ls

/-- Token lists of a list of argument strings, concatenated in order. -/
def tokenLists : List String → List (List Char)
  | [] => []
  | a :: rest => tokensCL a.data ++ tokenLists rest

/-- Modelled from the spec: `cn` merges the space-separated class tokens of
its arguments and deduplicates them (a duplicated token is kept once; the
later occurrence wins, matching a class-merge where later classes
override). -/
def cn (args : List String) : String :=
  String.mk (joinCL (List.dedup (tokenLists args)))

/-- Space-separated tokens of a single class string, as strings. -/
def tokens (s : String) : List String :=
  (tokensCL s.data).map String.mk

/-! ### JavaScript value and configuration model (from the source) -/

/-- Primitive JavaScript values that occur as variant prop values, default
values and compound-variant condition values (`string | number | boolean |
null`).  An absent key / `undefined` is represented by an `Option.none`
lookup result, not by a `JValue`. -/
inductive JValue where
  | str (s : String)
  | num (n : Int)
  | bool (b : Bool)
  | null
deriving DecidableEq, Repr

/-- Lookup in an association list modelling a JavaScript object (a key
occurs at most once in an object; the first binding wins). -/
def lookupKV {α : Type} (k : String) : List (String × α) → Option α
  | [] => none
  | e :: rest => if e.1 = k then some e.2 else lookupKV k rest

/-- Variant props object: a finite map from prop names to values. -/
abbrev Props : Type := List (String × JValue)

/-- Resolution `props[key] ?? defaults[key]` used by `resolveVariantClasses`
(line 561), `resolveSlotsVariantClasses` (line 651) and
`matchesCompoundVariant` (line 506): the nullish-coalescing operator falls
back to the default when the prop is absent (`undefined`) or `null`. -/
def resolveProp (props defaults : Props) (k : String) : Option JValue :=
  match lookupKV k props with
  | none => lookupKV k defaults
  | some JValue.null => lookupKV k defaults
  | some v => some v

/-- JavaScript `String(v)` on the modelled primitive values. -/
def jsString : JValue → String
  | JValue.str s => s
  | JValue.num n => toString n
  | JValue.bool b => if b then "true" else "false"
  | JValue.null => "null"

/-- JavaScript truthiness of a possibly-absent value (`!propValue` test at
line 521): `undefined`, `null`, `false`, `''` and `0` are falsy. -/
def truthy : Option JValue → Bool
  | none => false
  | some JValue.null => false
  | some (JValue.bool b) => b
  | some (JValue.str s) => decide (s ≠ "")
  | some (JValue.num n) => decide (n ≠ 0)

/-- A single value of a variant definition: a class string in flat mode, a
slot-name-to-class-string object in slots mode, or a number
(`VariantValue = string | Record<string, string> | number`). -/
inductive VariantValue where
  | str (s : String)
  | obj (m : List (String × String))
  | num (n : Int)
deriving DecidableEq, Repr

/-- A variant definition maps variant keys (already strings, as JavaScript
object keys are strings) to variant values (`VariantDefinition`). -/
abbrev VariantDefinition : Type := List (String × VariantValue)

/-- The `class` field of a compound variant: absent, a plain class string,
or (slots mode) an object assigning classes to individual slots. -/
inductive CompoundClass where
  | undef
  | str (s : String)
  | obj (m : List (String × String))
deriving DecidableEq, Repr

/-- A compound variant: its axis conditions (every key of the object other
than `class`) and its `class` field. -/
structure CompoundVariant where
  conds : List (String × JValue)
  cls : CompoundClass
deriving DecidableEq, Repr

/-- One condition check of `matchesCompoundVariant` (lines 514-525): a
boolean condition `false` requires the resolved value to be exactly
`false`; a boolean condition `true` requires a truthy resolved value; any
other condition uses strict equality against the resolved value. -/
def condMatches (pv : Option JValue) (cv : JValue) : Bool :=
  match cv with
  | JValue.bool false => decide (pv = some (JValue.bool false))
  | JValue.bool true => truthy pv
  | _ => decide (pv = some cv)

/-- `matchesCompoundVariant` (lines 499-528): a compound variant matches
when every listed condition matches the resolved prop value (the loop
returns `false` at the first failing condition and `true` otherwise). -/
def matchesCompoundVariant (props : Props) (conds : List (String × JValue))
    (defaults : Props) : Bool :=
  conds.all (fun kv => condMatches (resolveProp props defaults kv.1) kv.2)

/-- Variant-key selection for one axis (lines 577-587): a boolean resolved
value is converted to the string key `'true'`/`'false'`, and skipped when
that key is not present in the definition; any other value is converted
with `String(...)`. -/
def axisKey (vd : VariantDefinition) (pv : JValue) : Option String :=
  match pv with
  | JValue.bool b =>
    let sk := if b then "true" else "false"
    if (lookupKV sk vd).isSome then some sk else none
  | _ => some (jsString pv)

/-- Contribution of one variant axis in flat mode (loop body, lines
560-596): resolve the prop (skipping `undefined`/`null`), select the
definition key, and push the selected value when it is a truthy string
(an object value is skipped in regular mode, a number pushes nothing). -/
def axisContribution (props defaults : Props)
    (entry : String × VariantDefinition) : Option String :=
  match resolveProp props defaults entry.1 with
  | none => none
  | some JValue.null => none
  | some pv =>
    match axisKey entry.2 pv with
    | none => none
    | some k =>
      match lookupKV k entry.2 with
      | some (VariantValue.str s) => if s = "" then none else some s
      | _ => none

/-- Contribution of one compound variant in flat mode (lines 599-605): the
`class` string is pushed when the compound matches and `compound.class` is
a truthy string. -/
def compoundContribution (props defaults : Props)
    (c : CompoundVariant) : Option String :=
  if matchesCompoundVariant props c.conds defaults then
    match c.cls with
    | CompoundClass.str s => if s = "" then none else some s
    | _ => none
  else none

/-- `resolveVariantClasses` (lines 551-608): the variant-axis classes in
declaration order, then the matching compound-variant classes in order,
merged with `cn`. -/
def resolveVariantClasses (props : Props)
    (variants : List (String × VariantDefinition))
    (compoundVariants : List CompoundVariant) (defaults : Props) : String :=
  cn (variants.filterMap (axisContribution props defaults)
    ++ compoundVariants.filterMap (compoundContribution props defaults))

/-- Contribution of one variant axis to one slot in slots mode (loop body,
lines 650-686): resolve the prop (skipping `undefined`/`null`), select the
definition key as in flat mode, then take the slot-specific class from the
selected object value and push it when it is a truthy string (a
non-object value contributes nothing). -/
def slotAxisContribution (slotName : String) (props defaults : Props)
    (entry : String × VariantDefinition) : Option String :=
  match resolveProp props defaults entry.1 with
  | none => none
  | some JValue.null => none
  | some pv =>
    match axisKey entry.2 pv with
    | none => none
    | some k =>
      match lookupKV k entry.2 with
      | some (VariantValue.obj m) =>
        match lookupKV slotName m with
        | some s => if s = "" then none else some s
        | none => none
      | _ => none

/-- Contribution of one compound variant to one slot in slots mode (lines
690-702): when the compound matches, a truthy string `class` is applied to
every slot, while an object `class` is applied only to the slot named by
its keys (again only a truthy entry is pushed). -/
def slotCompoundContribution (slotName : String) (props defaults : Props)
    (c : CompoundVariant) : Option String :=
  if matchesCompoundVariant props c.conds defaults then
    match c.cls with
    | CompoundClass.str s => if s = "" then none else some s
    | CompoundClass.obj m =>
      match lookupKV slotName m with
      | some s => if s = "" then none else some s
      | none => none
    | CompoundClass.undef => none
  else none

/-- `resolveSlotsVariantClasses` (lines 639-705): per-slot variant-axis
classes in declaration order, then the matching compound-variant classes,
merged with `cn`. -/
def resolveSlotsVariantClasses (slotName : String) (props : Props)
    (slotsVariants : List (String × VariantDefinition))
    (compoundVariants : List CompoundVariant) (defaults : Props) : String :=
  cn (slotsVariants.filterMap (slotAxisContribution slotName props defaults)
    ++ compoundVariants.filterMap (slotCompoundContribution slotName props defaults))

/-- Configuration accepted by `createVariant`.  A flat configuration has
`slots = none` (the TypeScript `VariantConfig` excludes `slots`); a slots
configuration carries the slot base classes (the TypeScript `SlotsConfig`
excludes `base`).  Absent optional fields are `none` / `[]`. -/
structure VariantConfig where
  base : Option String
  slots : Option (List (String × String))
  variants : List (String × VariantDefinition)
  compoundVariants : List CompoundVariant
  defaultVariants : Props
deriving Repr

/-- `createVariantRegular` (lines 726-736): destructure `className` from
the props and return `cn(base, resolveVariantClasses(...), className)`.
The variant props (`props` here) are the props object without
`className`. -/
def createVariantRegular (config : VariantConfig) (props : Props)
    (className : Option String) : String :=
  cn [config.base.getD "",
    resolveVariantClasses props config.variants config.compoundVariants
      config.defaultVariants,
    className.getD ""]

/-- `createVariantSlots` (lines 767-796): build one resolver per declared
slot; each resolver closes over the same shared `props` and merges the
slot's base classes, its resolved variant classes and the per-call
`className`. -/
def createVariantSlots (config : VariantConfig)
    (slots : List (String × String)) (props : Props) :
    List (String × (Option String → String)) :=
  slots.map (fun sl =>
    (sl.1, fun slotClassName =>
      cn [sl.2,
        resolveSlotsVariantClasses sl.1 props config.variants
          config.compoundVariants config.defaultVariants,
        slotClassName.getD ""]))

/-- Result of applying the function returned by `createVariant` to a props
object: a single class string in flat mode, or a record of per-slot
resolver functions in slots mode. -/
inductive VariantResult where
  | flat (s : String)
  | slotted (resolvers : List (String × (Option String → String)))

/-- `createVariant` (lines 898-904): runtime dispatch on the presence of a
defined `slots` field in the configuration. -/
def createVariant (config : VariantConfig) (props : Props)
    (className : Option String) : VariantResult :=
  match config.slots with
  | some slots => VariantResult.slotted (createVariantSlots config slots props)
  | none => VariantResult.flat (createVariantRegular config props className)

/-- Removal of every binding of a key from an association list (used to
state that a supplied prop makes the default for that key irrelevant). -/
def removeKey {α : Type} (k : String) : List (String × α) → List (String × α)
  | [] => []
  | e :: rest => if e.1 = k then removeKey k rest else e :: removeKey k rest

/-! ### Example configurations (used to instantiate the theorems) -/

/-- Example flat-mode compound variant. -/
def exCompound : CompoundVariant :=
  ⟨[("variant", JValue.str "primary"), ("size", JValue.str "md")],
    CompoundClass.str "shadow-lg"⟩

/-- Example flat-mode configuration (after the `button` example in the
module documentation of the variants module). -/
def exConfigFlat : VariantConfig :=
  { base := some "px-4 py-2",
    slots := none,
    variants :=
      [("variant", [("primary", VariantValue.str "bg-blue-500"),
        ("secondary", VariantValue.str "bg-gray-500")]),
       ("size", [("sm", VariantValue.str "text-sm"),
        ("md", VariantValue.str "text-base")])],
    compoundVariants := [exCompound],
    defaultVariants := [("size", JValue.str "md")] }

/-- Example slot base classes (a reduced `fileInput` configuration). -/
def exSlots : List (String × String) :=
  [("container", "flex w-full"), ("button", "file:h-9")]

/-- Example slots-mode configuration. -/
def exConfigSlots : VariantConfig :=
  { base := none,
    slots := some exSlots,
    variants :=
      [("size", [("sm", VariantValue.obj [("container", "h-8")]),
        ("md", VariantValue.obj [("container", "h-10"), ("button", "file:px-3")])]),
       ("disabled", [("true", VariantValue.obj [("container", "cursor-not-allowed")])])],
    compoundVariants := [],
    defaultVariants := [("size", JValue.str "md")] }

/-! ### Token-level lemmas about the `cn` model -/

theorem splitOnP_members {α : Type} [DecidableEq α] (p : α → Bool) :
    ∀ (l : List α), ∀ t ∈ l.splitOnP p, ∀ x ∈ t, ¬ (p x = true) := by
  intro l
  induction l with
  | nil =>
    intro t ht x hx
    simp only [List.splitOnP_nil, List.mem_singleton] at ht
    subst ht
    simp at hx
  | cons a as ih =>
    intro t ht x hx
    rw [List.splitOnP_cons] at ht
    by_cases hpa : p a
    · rw [if_pos hpa] at ht
      rcases List.mem_cons.mp ht with h | h
      · subst h; simp at hx
      · exact ih t h x hx
    · rw [if_neg hpa] at ht
      rcases hsp : as.splitOnP p with _ | ⟨hd, tl⟩
      · exact absurd hsp (List.splitOnP_ne_nil p as)
      · rw [hsp] at ht
        simp only [List.modifyHead] at ht
        rcases List.mem_cons.mp ht with h | h
        · subst h
          rcases List.mem_cons.mp hx with h' | h'
          · subst h'; exact hpa
          · exact ih hd (by rw [hsp]; exact List.mem_cons_self hd tl) x h'
        · exact ih t (by rw [hsp]; exact List.mem_cons_of_mem hd h) x hx

/-- A token produced by `tokensCL` is nonempty and space-free. -/
theorem tokensCL_wf (l : List Char) : ∀ t ∈ tokensCL l, t ≠ [] ∧ ' ' ∉ t := by
  intro t ht
  unfold tokensCL at ht
  have hmem := List.mem_of_mem_filter ht
  have hne := List.of_mem_filter ht
  refine ⟨by simpa using hne, ?_⟩
  intro hx
  have := splitOnP_members (fun c => c == ' ') l t hmem ' ' hx
  simp at this

/-- Splitting is a left inverse of joining, on nonempty space-free tokens. -/
theorem tokensCL_joinCL (ls : List (List Char))
    (h : ∀ t ∈ ls, t ≠ [] ∧ ' ' ∉ t) : tokensCL (joinCL ls) = ls := by
  rcases hls : ls with _ | ⟨t, ts⟩
  · rfl
  · rw [← hls]
    unfold tokensCL joinCL
    rw [List.splitOn_intercalate ls ' ' (fun l hl => (h l hl).2) (by simp [hls])]
    exact List.filter_eq_self.mpr (fun a ha => by simpa using (h a ha).1)

theorem tokenLists_append (xs ys : List String) :
    tokenLists (xs ++ ys) = tokenLists xs ++ tokenLists ys := by
  induction xs with
  | nil => rfl
  | cons a xs ih => simp [tokenLists, ih]

theorem tokenLists_wf (args : List String) :
    ∀ t ∈ tokenLists args, t ≠ [] ∧ ' ' ∉ t := by
  induction args with
  | nil => intro t ht; simp [tokenLists] at ht
  | cons a rest ih =>
    intro t ht
    rcases List.mem_append.mp ht with h | h
    · exact tokensCL_wf a.data t h
    · exact ih t h

/-- Deduplicating first on a sublist does not change a later global
deduplication. -/
theorem dedup_union_eq {α : Type} [DecidableEq α] (l w : List α) :
    l.dedup ∪ w = l ∪ w := by
  induction l with
  | nil => rfl
  | cons a l ih =>
    by_cases h : a ∈ l
    · rw [List.dedup_cons_of_mem h, ih, List.cons_union,
        List.insert_of_mem (List.mem_union_left h w)]
    · rw [List.dedup_cons_of_not_mem h, List.cons_union, List.cons_union, ih]

theorem dedup_middle {α : Type} [DecidableEq α] (xs W zs : List α) :
    List.dedup (xs ++ (W.dedup ++ zs)) = List.dedup (xs ++ (W ++ zs)) := by
  rw [List.dedup_append, List.dedup_append, List.dedup_append,
    List.dedup_append, dedup_union_eq]

/-- Token lists of a `cn` result: joining wellformed tokens and re-splitting
recovers them. -/
theorem tokensCL_cn (args : List String) :
    tokensCL (cn args).data = List.dedup (tokenLists args) := by
  show tokensCL (joinCL (List.dedup (tokenLists args))) = _
  exact tokensCL_joinCL _ (fun t ht =>
    tokenLists_wf args t (List.mem_dedup.mp ht))

/-- Flattening a nested `cn`: the merge of `a`, an already-merged list `l`,
and `c` equals the merge of the flat list. -/
theorem cn_nested (a c : String) (l : List String) :
    cn [a, cn l, c] = cn ([a] ++ l ++ [c]) := by
  have h1 : tokenLists [a, cn l, c]
      = tokensCL a.data ++ ((tokenLists l).dedup ++ tokensCL c.data) := by
    simp only [tokenLists, tokensCL_cn, List.append_nil]
  have h2 : tokenLists ([a] ++ l ++ [c])
      = tokensCL a.data ++ (tokenLists l ++ tokensCL c.data) := by
    rw [tokenLists_append, tokenLists_append]
    simp only [tokenLists, List.append_nil, List.nil_append, List.append_assoc]
  have key : List.dedup (tokenLists [a, cn l, c])
      = List.dedup (tokenLists ([a] ++ l ++ [c])) := by
    rw [h1, h2, dedup_middle]
  show String.mk (joinCL (List.dedup (tokenLists [a, cn l, c]))) = _
  rw [key]
  rfl


/-! ### Helper lemmas about lookups and prop resolution -/

theorem mem_tokenLists_of {args : List String} {s : String} {w : List Char}
    (hs : s ∈ args) (hw : w ∈ tokensCL s.data) : w ∈ tokenLists args := by
  induction args with
  | nil => simp at hs
  | cons a rest ih =>
    rcases List.mem_cons.mp hs with h | h
    · subst h
      exact List.mem_append_left _ hw
    · exact List.mem_append_right _ (ih h)

theorem lookupKV_removeKey_ne {α : Type} (k q : String) (l : List (String × α))
    (h : q ≠ k) : lookupKV q (removeKey k l) = lookupKV q l := by
  induction l with
  | nil => rfl
  | cons e rest ih =>
    by_cases he : e.1 = k
    · have hq : ¬ (e.1 = q) := by rw [he]; exact fun hh => h hh.symm
      simp only [removeKey, if_pos he, lookupKV, if_neg hq, ih]
    · by_cases hq : e.1 = q
      · simp only [removeKey, if_neg he, lookupKV, if_pos hq]
      · simp only [removeKey, if_neg he, lookupKV, if_neg hq, ih]

/-- Substituting the default value for an omitted-or-null prop does not
change any resolved value. -/
theorem resolveProp_default_subst (props defaults : Props) (k : String)
    (d : JValue)
    (hp : lookupKV k props = none ∨ lookupKV k props = some JValue.null)
    (hd : lookupKV k defaults = some d) :
    ∀ q, resolveProp ((k, d) :: props) defaults q = resolveProp props defaults q := by
  intro q
  by_cases hq : k = q
  · subst hq
    have hl : lookupKV k ((k, d) :: props) = some d := by
      simp [lookupKV]
    unfold resolveProp
    rw [hl]
    rcases hp with hp | hp <;> rw [hp] <;> cases d <;> simp [hd]
  · have hl : lookupKV q ((k, d) :: props) = lookupKV q props := by
      simp [lookupKV, hq]
    unfold resolveProp
    rw [hl]

/-- A supplied non-null prop value makes the default binding for its key
irrelevant. -/
theorem resolveProp_default_drop (props defaults : Props) (k : String)
    (v : JValue) (hp : lookupKV k props = some v) (hv : v ≠ JValue.null) :
    ∀ q, resolveProp props (removeKey k defaults) q = resolveProp props defaults q := by
  intro q
  by_cases hq : q = k
  · subst hq
    unfold resolveProp
    rw [hp]
    cases v with
    | null => exact absurd rfl hv
    | str s => rfl
    | num n => rfl
    | bool b => rfl
  · unfold resolveProp
    rw [lookupKV_removeKey_ne k q defaults hq]

/-! ### Congruence: the resolvers depend on the props and defaults only
through the resolved value of each key -/

theorem axisContribution_congr {p1 d1 p2 d2 : Props}
    (h : ∀ q, resolveProp p1 d1 q = resolveProp p2 d2 q) :
    axisContribution p1 d1 = axisContribution p2 d2 := by
  funext e
  unfold axisContribution
  rw [h e.1]

theorem slotAxisContribution_congr {p1 d1 p2 d2 : Props} (slot : String)
    (h : ∀ q, resolveProp p1 d1 q = resolveProp p2 d2 q) :
    slotAxisContribution slot p1 d1 = slotAxisContribution slot p2 d2 := by
  funext e
  unfold slotAxisContribution
  rw [h e.1]

theorem matchesCompoundVariant_congr {p1 d1 p2 d2 : Props}
    (h : ∀ q, resolveProp p1 d1 q = resolveProp p2 d2 q)
    (conds : List (String × JValue)) :
    matchesCompoundVariant p1 conds d1 = matchesCompoundVariant p2 conds d2 := by
  unfold matchesCompoundVariant
  congr 1
  funext kv
  rw [h kv.1]

theorem compoundContribution_congr {p1 d1 p2 d2 : Props}
    (h : ∀ q, resolveProp p1 d1 q = resolveProp p2 d2 q) :
    compoundContribution p1 d1 = compoundContribution p2 d2 := by
  funext c
  unfold compoundContribution
  rw [matchesCompoundVariant_congr h c.conds]

theorem slotCompoundContribution_congr {p1 d1 p2 d2 : Props} (slot : String)
    (h : ∀ q, resolveProp p1 d1 q = resolveProp p2 d2 q) :
    slotCompoundContribution slot p1 d1 = slotCompoundContribution slot p2 d2 := by
  funext c
  unfold slotCompoundContribution
  rw [matchesCompoundVariant_congr h c.conds]

theorem resolveVariantClasses_congr {p1 d1 p2 d2 : Props}
    (h : ∀ q, resolveProp p1 d1 q = resolveProp p2 d2 q)
    (variants : List (String × VariantDefinition))
    (compounds : List CompoundVariant) :
    resolveVariantClasses p1 variants compounds d1
      = resolveVariantClasses p2 variants compounds d2 := by
  unfold resolveVariantClasses
  rw [axisContribution_congr h, compoundContribution_congr h]

theorem resolveSlotsVariantClasses_congr {p1 d1 p2 d2 : Props} (slot : String)
    (h : ∀ q, resolveProp p1 d1 q = resolveProp p2 d2 q)
    (variants : List (String × VariantDefinition))
    (compounds : List CompoundVariant) :
    resolveSlotsVariantClasses slot p1 variants compounds d1
      = resolveSlotsVariantClasses slot p2 variants compounds d2 := by
  unfold resolveSlotsVariantClasses
  rw [slotAxisContribution_congr slot h, slotCompoundContribution_congr slot h]

/-- Lookup-extensionally equal props objects resolve identically against
any defaults. -/
theorem resolveProp_lookup_congr {p1 p2 : Props}
    (h : ∀ q, lookupKV q p1 = lookupKV q p2) (defaults : Props) :
    ∀ q, resolveProp p1 defaults q = resolveProp p2 defaults q := by
  intro q
  unfold resolveProp
  rw [h q]

/-! ### Claim theorems -/

/-- C1: `createVariant` supports exactly two modes selected by the shape of
its configuration.  With a defined `slots` field, applying the returned
function to a props object yields a record mapping each declared slot name
to a resolver producing that slot's class string, and all resolvers share
the same variant props; otherwise it yields a single class string. -/
theorem createVariant_two_modes (config : VariantConfig) (props : Props)
    (className : Option String) :
    (∀ slots, config.slots = some slots →
      createVariant config props className
        = VariantResult.slotted (slots.map (fun sl =>
            (sl.1, fun slotClassName =>
              cn [sl.2,
                resolveSlotsVariantClasses sl.1 props config.variants
                  config.compoundVariants config.defaultVariants,
                slotClassName.getD ""]))))
    ∧ (config.slots = none →
      ∃ s : String, createVariant config props className = VariantResult.flat s) := by
  constructor
  · intro slots hs
    unfold createVariant
    rw [hs]
    rfl
  · intro hs
    refine ⟨createVariantRegular config props className, ?_⟩
    unfold createVariant
    rw [hs]

theorem createVariant_two_modes_witness :
    createVariant exConfigSlots [("size", JValue.str "sm")] none
      = VariantResult.slotted (exSlots.map (fun sl =>
          (sl.1, fun slotClassName =>
            cn [sl.2,
              resolveSlotsVariantClasses sl.1 [("size", JValue.str "sm")]
                exConfigSlots.variants exConfigSlots.compoundVariants
                exConfigSlots.defaultVariants,
              slotClassName.getD ""])))
    ∧ ∃ s : String, createVariant exConfigFlat [("variant", JValue.str "primary")]
        (some "custom") = VariantResult.flat s :=
  ⟨(createVariant_two_modes exConfigSlots [("size", JValue.str "sm")] none).1 exSlots rfl,
   (createVariant_two_modes exConfigFlat [("variant", JValue.str "primary")]
     (some "custom")).2 rfl⟩

/-- C2: in flat mode the returned class string is the merge of the base
classes, then for each declared axis the class selected by the resolved
value (an axis whose resolved value is absent from its definition
contributes nothing, as `axisContribution` returns `none`), then the class
of each matching compound variant, then the caller-supplied `className`. -/
theorem createVariant_flat_merge (config : VariantConfig) (props : Props)
    (className : Option String) (h : config.slots = none) :
    createVariant config props className
      = VariantResult.flat (cn ([config.base.getD ""]
          ++ (config.variants.filterMap
                (axisContribution props config.defaultVariants)
            ++ config.compoundVariants.filterMap
                (compoundContribution props config.defaultVariants))
          ++ [className.getD ""])) := by
  unfold createVariant
  rw [h]
  show VariantResult.flat (createVariantRegular config props className) = _
  unfold createVariantRegular resolveVariantClasses
  rw [cn_nested]

theorem createVariant_flat_merge_witness :
    createVariant exConfigFlat [("variant", JValue.str "primary")] (some "custom")
      = VariantResult.flat (cn ([exConfigFlat.base.getD ""]
          ++ (exConfigFlat.variants.filterMap
                (axisContribution [("variant", JValue.str "primary")]
                  exConfigFlat.defaultVariants)
            ++ exConfigFlat.compoundVariants.filterMap
                (compoundContribution [("variant", JValue.str "primary")]
                  exConfigFlat.defaultVariants))
          ++ [(some "custom").getD ""])) :=
  createVariant_flat_merge exConfigFlat [("variant", JValue.str "primary")]
    (some "custom") rfl

/-- C7: the `cn` class-name joiner merges its space-separated class-token
arguments and deduplicates them: every token of every input appears among
the tokens of the output, and no token appears in the output more than
once. -/
theorem cn_merges_and_dedups (args : List String) :
    (∀ s ∈ args, ∀ t ∈ tokens s, t ∈ tokens (cn args))
    ∧ (tokens (cn args)).Nodup := by
  have hcn : tokens (cn args) = (List.dedup (tokenLists args)).map String.mk := by
    unfold tokens
    rw [tokensCL_cn]
  constructor
  · intro s hs t ht
    rw [hcn]
    unfold tokens at ht
    rcases List.mem_map.mp ht with ⟨w, hw, rfl⟩
    exact List.mem_map_of_mem _ (List.mem_dedup.mpr (mem_tokenLists_of hs hw))
  · rw [hcn]
    exact (List.nodup_dedup _).map (fun a b hab => by injection hab)

theorem cn_merges_and_dedups_witness :
    "b" ∈ tokens (cn ["a b", "b c"]) ∧ (tokens (cn ["a b", "b c"])).Nodup :=
  ⟨(cn_merges_and_dedups ["a b", "b c"]).1 "a b" (by decide) "b" (by decide),
   (cn_merges_and_dedups ["a b", "b c"]).2⟩

/-- C9: compound-variant condition matching is asymmetric for booleans: a
`true` condition is satisfied by any truthy resolved value (including a
non-empty string and a non-zero number), a `false` condition only by the
exact value `false` (absent and `null` resolved values fail it), and
non-boolean conditions use strict equality. -/
theorem compound_boolean_asymmetry (props defaults : Props) (k : String)
    (rest : List (String × JValue)) :
    (matchesCompoundVariant props ((k, JValue.bool true) :: rest) defaults
      = (truthy (resolveProp props defaults k)
          && matchesCompoundVariant props rest defaults))
    ∧ (matchesCompoundVariant props ((k, JValue.bool false) :: rest) defaults
      = (decide (resolveProp props defaults k = some (JValue.bool false))
          && matchesCompoundVariant props rest defaults))
    ∧ (∀ s, matchesCompoundVariant props ((k, JValue.str s) :: rest) defaults
      = (decide (resolveProp props defaults k = some (JValue.str s))
          && matchesCompoundVariant props rest defaults))
    ∧ (∀ n : Int, matchesCompoundVariant props ((k, JValue.num n) :: rest) defaults
      = (decide (resolveProp props defaults k = some (JValue.num n))
          && matchesCompoundVariant props rest defaults))
    ∧ truthy (some (JValue.str "a")) = true
    ∧ truthy (some (JValue.num 5)) = true
    ∧ truthy none = false
    ∧ truthy (some JValue.null) = false
    ∧ matchesCompoundVariant [("x", JValue.str "a")] [("x", JValue.bool true)] [] = true
    ∧ matchesCompoundVariant [("x", JValue.num 5)] [("x", JValue.bool true)] [] = true
    ∧ matchesCompoundVariant [] [("x", JValue.bool false)] [] = false
    ∧ matchesCompoundVariant [("x", JValue.null)] [("x", JValue.bool false)] [] = false
    ∧ matchesCompoundVariant [("x", JValue.bool false)] [("x", JValue.bool false)] [] = true := by
  refine ⟨?_, ?_, ?_, ?_, rfl, by decide, rfl, rfl, by decide, by decide,
    by decide, by decide, by decide⟩
  · simp [matchesCompoundVariant, condMatches]
  · simp [matchesCompoundVariant, condMatches]
  · intro s
    simp [matchesCompoundVariant, condMatches]
  · intro n
    simp [matchesCompoundVariant, condMatches]

/-- C3: a compound variant's classes are appended if and only if every
listed axis condition matches the resolved prop value; a compound with any
non-matching listed axis contributes nothing. -/
theorem compound_applied_iff_matches (props defaults : Props)
    (c : CompoundVariant) :
    (matchesCompoundVariant props c.conds defaults = true
      ↔ ∀ kv ∈ c.conds, condMatches (resolveProp props defaults kv.1) kv.2 = true)
    ∧ (matchesCompoundVariant props c.conds defaults = false →
        compoundContribution props defaults c = none)
    ∧ (∀ s, c.cls = CompoundClass.str s → s ≠ "" →
        matchesCompoundVariant props c.conds defaults = true →
        compoundContribution props defaults c = some s)
    ∧ (compoundContribution props defaults c ≠ none →
        matchesCompoundVariant props c.conds defaults = true) := by
  refine ⟨?_, ?_, ?_, ?_⟩
  · unfold matchesCompoundVariant
    exact List.all_eq_true
  · intro h
    unfold compoundContribution
    rw [h]
    simp
  · intro s hcls hs hm
    unfold compoundContribution
    rw [hm, hcls]
    simp [hs]
  · intro h
    rcases hb : matchesCompoundVariant props c.conds defaults with _ | _
    · exact absurd (by unfold compoundContribution; rw [hb]; simp) h
    · rfl

theorem compound_applied_iff_matches_witness :
    compoundContribution [("variant", JValue.str "primary")]
      [("size", JValue.str "md")] exCompound = some "shadow-lg" :=
  (compound_applied_iff_matches [("variant", JValue.str "primary")]
      [("size", JValue.str "md")] exCompound).2.2.1 "shadow-lg" rfl
    (by decide) (by decide)

/-- C8: for a boolean axis resolved to `false`, a definition with only a
`'true'` key contributes nothing (the axis is skipped), while a definition
with a `'false'` key contributes exactly the classes mapped under
`'false'`, in flat mode and in slots mode alike. -/
theorem boolean_axis_false_handling (props defaults : Props) (k slot : String)
    (vd : VariantDefinition)
    (hk : resolveProp props defaults k = some (JValue.bool false)) :
    (lookupKV "false" vd = none →
      axisContribution props defaults (k, vd) = none
      ∧ slotAxisContribution slot props defaults (k, vd) = none
      ∧ resolveVariantClasses props [(k, vd)] [] defaults = cn []
      ∧ resolveSlotsVariantClasses slot props [(k, vd)] [] defaults = cn [])
    ∧ (∀ s, lookupKV "false" vd = some (VariantValue.str s) → s ≠ "" →
        axisContribution props defaults (k, vd) = some s
        ∧ resolveVariantClasses props [(k, vd)] [] defaults = cn [s])
    ∧ (∀ m s, lookupKV "false" vd = some (VariantValue.obj m) →
        lookupKV slot m = some s → s ≠ "" →
        slotAxisContribution slot props defaults (k, vd) = some s
        ∧ resolveSlotsVariantClasses slot props [(k, vd)] [] defaults = cn [s]) := by
  refine ⟨?_, ?_, ?_⟩
  · intro hfalse
    have hax : axisContribution props defaults (k, vd) = none := by
      simp [axisContribution, hk, axisKey, hfalse]
    have hsl : slotAxisContribution slot props defaults (k, vd) = none := by
      simp [slotAxisContribution, hk, axisKey, hfalse]
    exact ⟨hax, hsl,
      by simp [resolveVariantClasses, hax],
      by simp [resolveSlotsVariantClasses, hsl]⟩
  · intro s hfalse hs
    have hax : axisContribution props defaults (k, vd) = some s := by
      simp [axisContribution, hk, axisKey, hfalse, hs]
    exact ⟨hax, by simp [resolveVariantClasses, hax]⟩
  · intro m s hfalse hslot hs
    have hsl : slotAxisContribution slot props defaults (k, vd) = some s := by
      simp [slotAxisContribution, hk, axisKey, hfalse, hslot, hs]
    exact ⟨hsl, by simp [resolveSlotsVariantClasses, hsl]⟩

theorem boolean_axis_false_handling_witness :
    (axisContribution [("disabled", JValue.bool false)] []
        ("disabled", [("true", VariantValue.str "opacity-50")]) = none
      ∧ slotAxisContribution "container" [("disabled", JValue.bool false)] []
        ("disabled", [("true", VariantValue.str "opacity-50")]) = none
      ∧ resolveVariantClasses [("disabled", JValue.bool false)]
        [("disabled", [("true", VariantValue.str "opacity-50")])] [] [] = cn []
      ∧ resolveSlotsVariantClasses "container" [("disabled", JValue.bool false)]
        [("disabled", [("true", VariantValue.str "opacity-50")])] [] [] = cn [])
    ∧ (axisContribution [("selected", JValue.bool false)] []
        ("selected", [("true", VariantValue.str "bg-blue-500"),
          ("false", VariantValue.str "bg-gray-200")]) = some "bg-gray-200"
      ∧ resolveVariantClasses [("selected", JValue.bool false)]
        [("selected", [("true", VariantValue.str "bg-blue-500"),
          ("false", VariantValue.str "bg-gray-200")])] [] [] = cn ["bg-gray-200"]) :=
  ⟨(boolean_axis_false_handling [("disabled", JValue.bool false)] []
      "disabled" "container" [("true", VariantValue.str "opacity-50")]
      (by decide)).1 rfl,
   (boolean_axis_false_handling [("selected", JValue.bool false)] []
      "selected" "container" [("true", VariantValue.str "bg-blue-500"),
        ("false", VariantValue.str "bg-gray-200")]
      (by decide)).2.1 "bg-gray-200" rfl (by decide)⟩

/-- C10: in slots mode a matching compound variant with a plain-string
`class` contributes that string to every slot, while an object `class`
contributes only to the slots named by its keys. -/
theorem slots_compound_string_vs_object (props defaults : Props)
    (c : CompoundVariant)
    (hm : matchesCompoundVariant props c.conds defaults = true) :
    (∀ s slot, c.cls = CompoundClass.str s → s ≠ "" →
      slotCompoundContribution slot props defaults c = some s
      ∧ resolveSlotsVariantClasses slot props [] [c] defaults = cn [s])
    ∧ (∀ m slot, c.cls = CompoundClass.obj m →
      slotCompoundContribution slot props defaults c
        = (match lookupKV slot m with
           | some s => if s = "" then none else some s
           | none => none)
      ∧ (lookupKV slot m = none →
          resolveSlotsVariantClasses slot props [] [c] defaults = cn [])) := by
  constructor
  · intro s slot hcls hs
    have hc : slotCompoundContribution slot props defaults c = some s := by
      simp [slotCompoundContribution, hm, hcls, hs]
    exact ⟨hc, by simp [resolveSlotsVariantClasses, hc]⟩
  · intro m slot hcls
    constructor
    · simp [slotCompoundContribution, hm, hcls]
    · intro hnone
      have hc : slotCompoundContribution slot props defaults c = none := by
        simp [slotCompoundContribution, hm, hcls, hnone]
      simp [resolveSlotsVariantClasses, hc]

theorem slots_compound_string_vs_object_witness :
    (slotCompoundContribution "container" [("variant", JValue.str "primary")]
        [("size", JValue.str "md")] exCompound = some "shadow-lg"
      ∧ resolveSlotsVariantClasses "container" [("variant", JValue.str "primary")]
        [] [exCompound] [("size", JValue.str "md")] = cn ["shadow-lg"])
    ∧ (slotCompoundContribution "input" [("variant", JValue.str "primary")]
        [("size", JValue.str "md")]
        ⟨[("variant", JValue.str "primary")],
          CompoundClass.obj [("container", "ring-2")]⟩
        = (match lookupKV "input" [("container", "ring-2")] with
           | some s => if s = "" then none else some s
           | none => none)
      ∧ (lookupKV "input" [("container", "ring-2")] = none →
          resolveSlotsVariantClasses "input" [("variant", JValue.str "primary")]
            [] [⟨[("variant", JValue.str "primary")],
              CompoundClass.obj [("container", "ring-2")]⟩]
            [("size", JValue.str "md")] = cn [])) :=
  ⟨(slots_compound_string_vs_object [("variant", JValue.str "primary")]
      [("size", JValue.str "md")] exCompound (by decide)).1 "shadow-lg"
      "container" rfl (by decide),
   (slots_compound_string_vs_object [("variant", JValue.str "primary")]
      [("size", JValue.str "md")]
      ⟨[("variant", JValue.str "primary")],
        CompoundClass.obj [("container", "ring-2")]⟩
      (by decide)).2 [("container", "ring-2")] "input" rfl⟩

/-- C4: an axis omitted from the props (or supplied as `undefined`/`null`)
resolves through the declared default, both for variant-class selection
and for compound matching — substituting the default as an explicit prop
changes nothing; a supplied non-null value is used and the default binding
for that key is irrelevant. -/
theorem default_fallback (props defaults : Props) (k : String) (d : JValue)
    (variants : List (String × VariantDefinition))
    (compounds : List CompoundVariant)
    (conds : List (String × JValue)) (slot : String) :
    ((lookupKV k props = none ∨ lookupKV k props = some JValue.null) →
      lookupKV k defaults = some d →
      (resolveVariantClasses props variants compounds defaults
          = resolveVariantClasses ((k, d) :: props) variants compounds defaults
        ∧ matchesCompoundVariant props conds defaults
          = matchesCompoundVariant ((k, d) :: props) conds defaults
        ∧ resolveSlotsVariantClasses slot props variants compounds defaults
          = resolveSlotsVariantClasses slot ((k, d) :: props) variants
              compounds defaults))
    ∧ (∀ v, lookupKV k props = some v → v ≠ JValue.null →
      (resolveVariantClasses props variants compounds defaults
          = resolveVariantClasses props variants compounds (removeKey k defaults)
        ∧ matchesCompoundVariant props conds defaults
          = matchesCompoundVariant props conds (removeKey k defaults)
        ∧ resolveSlotsVariantClasses slot props variants compounds defaults
          = resolveSlotsVariantClasses slot props variants compounds
              (removeKey k defaults))) := by
  constructor
  · intro hp hd
    have h := resolveProp_default_subst props defaults k d hp hd
    have h' : ∀ q, resolveProp props defaults q
        = resolveProp ((k, d) :: props) defaults q := fun q => (h q).symm
    exact ⟨resolveVariantClasses_congr h' variants compounds,
      matchesCompoundVariant_congr h' conds,
      resolveSlotsVariantClasses_congr slot h' variants compounds⟩
  · intro v hp hv
    have h := resolveProp_default_drop props defaults k v hp hv
    have h' : ∀ q, resolveProp props defaults q
        = resolveProp props (removeKey k defaults) q := fun q => (h q).symm
    exact ⟨resolveVariantClasses_congr h' variants compounds,
      matchesCompoundVariant_congr h' conds,
      resolveSlotsVariantClasses_congr slot h' variants compounds⟩

theorem default_fallback_witness :
    (resolveVariantClasses [] exConfigFlat.variants [exCompound]
        [("size", JValue.str "md")]
      = resolveVariantClasses [("size", JValue.str "md")] exConfigFlat.variants
        [exCompound] [("size", JValue.str "md")]
    ∧ matchesCompoundVariant [] exCompound.conds [("size", JValue.str "md")]
      = matchesCompoundVariant [("size", JValue.str "md")] exCompound.conds
        [("size", JValue.str "md")]
    ∧ resolveSlotsVariantClasses "container" [] exConfigFlat.variants
        [exCompound] [("size", JValue.str "md")]
      = resolveSlotsVariantClasses "container" [("size", JValue.str "md")]
        exConfigFlat.variants [exCompound] [("size", JValue.str "md")])
    ∧ (resolveVariantClasses [("size", JValue.str "sm")] exConfigFlat.variants
        [exCompound] [("size", JValue.str "md")]
      = resolveVariantClasses [("size", JValue.str "sm")] exConfigFlat.variants
        [exCompound] (removeKey "size" [("size", JValue.str "md")])
    ∧ matchesCompoundVariant [("size", JValue.str "sm")] exCompound.conds
        [("size", JValue.str "md")]
      = matchesCompoundVariant [("size", JValue.str "sm")] exCompound.conds
        (removeKey "size" [("size", JValue.str "md")])
    ∧ resolveSlotsVariantClasses "container" [("size", JValue.str "sm")]
        exConfigFlat.variants [exCompound] [("size", JValue.str "md")]
      = resolveSlotsVariantClasses "container" [("size", JValue.str "sm")]
        exConfigFlat.variants [exCompound]
        (removeKey "size" [("size", JValue.str "md")])) :=
  ⟨(default_fallback [] [("size", JValue.str "md")] "size" (JValue.str "md")
      exConfigFlat.variants [exCompound] exCompound.conds "container").1
    (Or.inl rfl) (by decide),
   (default_fallback [("size", JValue.str "sm")] [("size", JValue.str "md")]
      "size" (JValue.str "md") exConfigFlat.variants [exCompound]
      exCompound.conds "container").2 (JValue.str "sm") (by decide) (by decide)⟩

theorem lookupKV_createVariantSlots (config : VariantConfig)
    (slots : List (String × String)) (props : Props) (s : String) :
    lookupKV s (createVariantSlots config slots props)
      = (lookupKV s slots).map (fun b => fun slotClassName : Option String =>
          cn [b,
            resolveSlotsVariantClasses s props config.variants
              config.compoundVariants config.defaultVariants,
            slotClassName.getD ""]) := by
  induction slots with
  | nil => rfl
  | cons sl rest ih =>
    by_cases hs : sl.1 = s
    · simp [createVariantSlots, lookupKV, hs]
    · simp only [createVariantSlots, List.map_cons, lookupKV, if_neg hs]
      exact ih

/-- C5: in slots mode each slot's class string is resolved independently:
the resolver obtained for slot `s` returns, for any per-call `className`,
the merge of that slot's own base classes, the classes selected for `s`
from the shared variant props and compound variants, and that
`className`; the result depends on no other slot's base classes and on no
other resolver's `className`. -/
theorem slot_resolution_independent (config : VariantConfig)
    (slots : List (String × String)) (props : Props) (s b : String)
    (c : Option String) (h : lookupKV s slots = some b) :
    ∃ f, lookupKV s (createVariantSlots config slots props) = some f
      ∧ f c = cn [b,
          resolveSlotsVariantClasses s props config.variants
            config.compoundVariants config.defaultVariants,
          c.getD ""] := by
  refine ⟨fun cOpt => cn [b,
      resolveSlotsVariantClasses s props config.variants
        config.compoundVariants config.defaultVariants,
      cOpt.getD ""], ?_, rfl⟩
  rw [lookupKV_createVariantSlots, h]
  rfl

theorem slot_resolution_independent_witness :
    ∃ f, lookupKV "button"
        (createVariantSlots exConfigSlots exSlots [("size", JValue.str "sm")])
        = some f
      ∧ f (some "extra") = cn ["file:h-9",
          resolveSlotsVariantClasses "button" [("size", JValue.str "sm")]
            exConfigSlots.variants exConfigSlots.compoundVariants
            exConfigSlots.defaultVariants,
          (some "extra").getD ""] :=
  slot_resolution_independent exConfigSlots exSlots [("size", JValue.str "sm")]
    "button" "file:h-9" (some "extra") (by decide)

/-- C6: the variant resolver is deterministic — the output depends only on
the configuration and the key-value content of the props object, so two
applications with the same (or lookup-extensionally equal) props produce
identical class strings, in flat mode and for every slot resolver. -/
theorem variant_resolution_deterministic (config : VariantConfig)
    (p1 p2 : Props) (className : Option String) (slot : String)
    (h : ∀ q, lookupKV q p1 = lookupKV q p2) :
    createVariant config p1 className = createVariant config p2 className
    ∧ resolveSlotsVariantClasses slot p1 config.variants
        config.compoundVariants config.defaultVariants
      = resolveSlotsVariantClasses slot p2 config.variants
        config.compoundVariants config.defaultVariants := by
  have hr : ∀ q, resolveProp p1 config.defaultVariants q
      = resolveProp p2 config.defaultVariants q :=
    resolveProp_lookup_congr h config.defaultVariants
  constructor
  · cases hcs : config.slots with
    | none =>
      unfold createVariant
      rw [hcs]
      show VariantResult.flat (createVariantRegular config p1 className)
        = VariantResult.flat (createVariantRegular config p2 className)
      unfold createVariantRegular
      rw [resolveVariantClasses_congr hr config.variants config.compoundVariants]
    | some slots =>
      unfold createVariant
      rw [hcs]
      show VariantResult.slotted (createVariantSlots config slots p1)
        = VariantResult.slotted (createVariantSlots config slots p2)
      have hmap : createVariantSlots config slots p1
          = createVariantSlots config slots p2 := by
        unfold createVariantSlots
        have hF : (fun sl : String × String =>
            (sl.1, fun slotClassName : Option String =>
              cn [sl.2,
                resolveSlotsVariantClasses sl.1 p1 config.variants
                  config.compoundVariants config.defaultVariants,
                slotClassName.getD ""]))
          = (fun sl : String × String =>
            (sl.1, fun slotClassName : Option String =>
              cn [sl.2,
                resolveSlotsVariantClasses sl.1 p2 config.variants
                  config.compoundVariants config.defaultVariants,
                slotClassName.getD ""])) := by
          funext sl
          congr 1
          funext slotClassName
          rw [resolveSlotsVariantClasses_congr sl.1 hr config.variants
            config.compoundVariants]
        rw [hF]
      rw [hmap]
  · exact resolveSlotsVariantClasses_congr slot hr config.variants
      config.compoundVariants

theorem variant_resolution_deterministic_witness :
    createVariant exConfigSlots [("a", JValue.str "x"), ("a", JValue.str "y")]
        none
      = createVariant exConfigSlots [("a", JValue.str "x")] none
    ∧ resolveSlotsVariantClasses "container"
        [("a", JValue.str "x"), ("a", JValue.str "y")] exConfigSlots.variants
        exConfigSlots.compoundVariants exConfigSlots.defaultVariants
      = resolveSlotsVariantClasses "container" [("a", JValue.str "x")]
        exConfigSlots.variants exConfigSlots.compoundVariants
        exConfigSlots.defaultVariants :=
  variant_resolution_deterministic exConfigSlots
    [("a", JValue.str "x"), ("a", JValue.str "y")] [("a", JValue.str "x")]
    none "container"
    (fun q => by by_cases hq : ("a" : String) = q <;> simp [lookupKV, hq])
